import Mathlib

/-!
# Verification of MountNBD (src/MountNBD.py)

A shallow embedding of the MountNBD command-line tool.  The program is a
linear pipeline: argument parsing and a root check (`startup`), image
validation (`check_image_file` / `is_QCOW`), kernel driver loading
(`load_nbd_driver`), device-slot allocation and binding (`connect_nbd`),
and mounting (`mount_devices`), sequenced by the `__main__` block
(`main_run` below).

External OS state (the filesystem, the module table, block-device sizes,
the mount table, and the success of the external commands) is modelled by
the `World` structure.  Every observable privileged OS command issued by
the program is recorded in a trace of `Action` values, and every `exit`
call in the Python source becomes an `ExitReason` value.  Machine
integers do not occur; byte strings are `List Nat`.
-/

namespace MountNBD

/-- `MOUNT_POINT = r'/mnt/qcow'` — the default mount point. -/
def MOUNT_POINT : String := "/mnt/qcow"

/-- The four magic bytes of a QCOW2 header, `b'QFI\xfb'` = 51 46 49 FB. -/
def qcowMagic : List Nat := [0x51, 0x46, 0x49, 0xFB]

/-- `LEGITIMATE_HEADERS = [b'QFI\xfb']` — the magic-number allow-list. -/
def LEGITIMATE_HEADERS : List (List Nat) := [qcowMagic]

/-- `NBD_LOCATION = r'/dev/nbd'`. -/
def NBD_LOCATION : String := "/dev/nbd"

/-- The device path of slot `i`: `'/dev/nbd' + str(nbd_drive)`. -/
def nbdPath (i : Nat) : String := NBD_LOCATION ++ toString i

/-- `__version__ = "2014-11-25 (v0.9)"`. -/
def versionText : String := "2014-11-25 (v0.9)"

/-- The string printed by the `--version` action:
`'MountNBD version %s' % __version__`. -/
def versionString : String := "MountNBD version " ++ versionText

/-- The privileged OS commands the program can issue, in the order they
appear in the source.  `qemuNbdDisconnect` and `umountCmd` are the
teardown commands: the source only prints them for the operator
(`sudo umount ... && sudo qemu-nbd -d ...`) and never executes them, so
no run of the embedded program emits them. -/
inductive Action where
  /-- `path.exists(...)` on the image file. -/
  | statCall (p : String)
  /-- `open(file_path, 'rb')` followed by `read(4)`. -/
  | openRead (p : String)
  /-- `check_output(['modprobe', 'nbd', 'max_part=16'])`. -/
  | modprobe (module : String) (param : String)
  /-- `check_output("lsmod | grep nbd", shell=True)`. -/
  | lsmodGrep (name : String)
  /-- `check_output(["blockdev", "--getsize64", "/dev/nbd%s" % nbd_drive])`. -/
  | blockdevGetSize (p : String)
  /-- `check_output(["qemu-nbd", "--connect=%s" % target_drive, image_file])`. -/
  | qemuNbdConnect (device : String) (file : String)
  /-- `mkdir(MOUNT_POINT)`. -/
  | mkdirCall (p : String)
  /-- `path.ismount(MOUNT_POINT)`. -/
  | ismountQuery (p : String)
  /-- `check_output("mount | grep %s | cut -f 1 -d ' '" % MOUNT_POINT, shell=True)`. -/
  | mountGrepQuery (p : String)
  /-- `sleep(2)` before mounting. -/
  | sleepFor (secs : Nat)
  /-- `check_output(["mount", target_nbd_device, MOUNT_POINT])`. -/
  | mountCmd (device : String) (dir : String)
  /-- `qemu-nbd -d` — printed as teardown advice, never executed. -/
  | qemuNbdDisconnect (device : String)
  /-- `umount` — printed as teardown advice, never executed. -/
  | umountCmd (p : String)
deriving DecidableEq, Repr

/-- How a run of the program terminates early.  Each constructor is one
exit path of the source (an `exit(...)` call, an `argparse` exit, or an
uncaught exception).  `poolExhausted` belongs to the error taxonomy of
the specification: no code path of the embedded program produces it,
and it is present so that statements about it can be expressed.
`outOfFuel` is a modelling artifact: the unbounded `while` loop of
`connect_nbd` is embedded with fuel, and `outOfFuel` means the given
fuel did not determine the loop's outcome — it is not an exit of the
program. -/
inductive ExitReason where
  /-- `argparse` version action: prints the version string, exits 0. -/
  | versionExit (s : String)
  /-- `argparse` help action (`-h`, `--help`): prints usage, exits 0. -/
  | helpExit
  /-- `argparse` usage error (missing/unrecognized arguments): exits 2. -/
  | usageError
  /-- `exit("You need to have root privileges to run this script.")`. -/
  | privilegeError
  /-- `exit("The target image file at %s doesn't seem to exist!")`. -/
  | notFound
  /-- `exit` on `IsADirectoryError` in `is_QCOW`. -/
  | isDirectory
  /-- `exit` on any other exception while opening/reading in `is_QCOW`. -/
  | unreadable
  /-- `exit("The file at %s doesn't look like a QCOW2 image file.")`. -/
  | unrecognizedFormat
  /-- `exit` when `modprobe nbd max_part=16` fails. -/
  | driverLoadFailed
  /-- `exit` when `lsmod | grep nbd` fails after a successful modprobe. -/
  | driverNotConfirmed
  /-- The uncaught `CalledProcessError` from `blockdev --getsize64` on a
  nonexistent device in `connect_nbd`; carries the probed device path. -/
  | uncaughtCalledProcessError (p : String)
  /-- Spec taxonomy only: never produced by the embedded program. -/
  | poolExhausted
  /-- `exit` when `qemu-nbd --connect` fails. -/
  | connectFailed
  /-- `exit("The target path is already mounted on %sPlease un-mount this
  path first.")`; carries the `mount | grep | cut` output. -/
  | alreadyMounted (source : String)
  /-- `exit("Everything seemed to go fine, right up until mounting ...")`. -/
  | mountFailed
  /-- Modelling artifact for insufficient fuel in the device scan. -/
  | outOfFuel
deriving DecidableEq, Repr

/-- The process exit status of each exit path: `exit(string)` exits with
status 1, `argparse` usage errors exit 2, the version and help actions
exit 0, and an uncaught exception makes the interpreter exit 1. -/
def exitCode : ExitReason → Nat
  | .versionExit _ => 0
  | .helpExit => 0
  | .usageError => 2
  | _ => 1

/-- What `open(file_path, 'rb')` + `read(4)` does for a given path. -/
inductive OpenResult where
  /-- The open raises `IsADirectoryError`. -/
  | isADirectory
  /-- The open/read raises some other exception. -/
  | ioError
  /-- The open succeeds and the file has these content bytes. -/
  | ok (content : List Nat)
deriving DecidableEq, Repr

/-- The external OS state and the outcomes of the external commands the
program invokes: everything outside the program that determines a run. -/
structure World where
  /-- `path.exists p`. -/
  pathExists : String → Bool
  /-- Outcome of opening `p` for binary read. -/
  openResult : String → OpenResult
  /-- Whether `modprobe nbd max_part=16` exits 0. -/
  modprobeOk : Bool
  /-- Whether `lsmod | grep nbd` exits 0 (driver listed as loaded). -/
  lsmodHasNbd : Bool
  /-- `blockdev --getsize64` on slot `i`: `none` when the command fails
  (the device node does not exist), `some s` for a reported size `s`. -/
  blockdevSize : Nat → Option Nat
  /-- Whether `qemu-nbd --connect` exits 0. -/
  qemuConnectOk : Bool
  /-- Whether the mount directory exists (`path.exists MOUNT_POINT`). -/
  dirExists : String → Bool
  /-- `path.ismount p`. -/
  isMountPoint : String → Bool
  /-- Output of `mount | grep p | cut -f 1 -d ' '` for a mounted `p`. -/
  mountedSource : String → String
  /-- Whether the final `mount` command exits 0. -/
  mountOk : Bool

/-- Whether a command-line token is an option token, i.e. begins with a
dash. -/
def isOptionToken (t : String) : Bool :=
  match t.data with
  | c :: _ => c == '-'
  | [] => false

/-- Outcome of `parser.parse_args()` for the parser built in `startup`. -/
inductive ParseResult where
  | versionExit (s : String)
  | helpExit
  | usageError
  | ok (verbose : Nat) (imageFile : String) (mountPoint : String)
deriving DecidableEq, Repr

/-- Modelled behaviour of the `argparse` parser configured in `startup`
(the parser itself is library code, external to the repository): tokens
are processed left to right; `--version` exits with the version string
and `-h`/`--help` exits with the usage text as soon as they are seen;
`-v`/`--verbose` counts occurrences; any other option token is
unrecognized and produces a usage error; non-option tokens fill the
positionals `image_file` (required) and `mount_point` (optional, default
`MOUNT_POINT`), and a wrong number of positionals is a usage error. -/
def parseArgs : List String → Nat → List String → ParseResult
  | [], v, positionals =>
    match positionals with
    | [f] => ParseResult.ok v f MOUNT_POINT
    | [f, m] => ParseResult.ok v f m
    | _ => ParseResult.usageError
  | t :: ts, v, positionals =>
    if t == "--version" then ParseResult.versionExit versionString
    else if t == "-h" || t == "--help" then ParseResult.helpExit
    else if t == "-v" || t == "--verbose" then parseArgs ts (v + 1) positionals
    else if isOptionToken t then ParseResult.usageError
    else parseArgs ts v (positionals ++ [t])

/-- `startup()`: builds the argument parser and calls `parse_args()`
(which may already exit: version, help, usage error), and only after a
successful parse checks `geteuid() != 0`, exiting with the privilege
message for a non-root caller.  On success it returns the parsed
verbosity count, image file and mount point. -/
def startup (euid : Nat) (argv : List String) :
    Except ExitReason (Nat × String × String) :=
  match parseArgs argv 0 [] with
  | ParseResult.versionExit s => Except.error (ExitReason.versionExit s)
  | ParseResult.helpExit => Except.error ExitReason.helpExit
  | ParseResult.usageError => Except.error ExitReason.usageError
  | ParseResult.ok v f m =>
    if euid ≠ 0 then Except.error ExitReason.privilegeError
    else Except.ok (v, f, m)

/-- `is_QCOW(file_path)`: opens the file, reads its first four bytes and
returns `True` exactly when they are in `LEGITIMATE_HEADERS` (a read
shorter than four bytes can never equal a four-byte header); exits on
`IsADirectoryError` or any other exception.  The Python function returns
`True` or falls through returning `None`, modelled as a `Bool`. -/
def is_QCOW (w : World) (filePath : String) :
    List Action × Except ExitReason Bool :=
  ([Action.openRead filePath],
    match w.openResult filePath with
    | OpenResult.isADirectory => Except.error ExitReason.isDirectory
    | OpenResult.ioError => Except.error ExitReason.unreadable
    | OpenResult.ok content =>
        Except.ok (decide (content.take 4 ∈ LEGITIMATE_HEADERS)))

/-- `check_image_file(file_to_check)`: exits if the path does not exist,
then exits with the not-a-QCOW2 message when `is_QCOW` is falsy. -/
def check_image_file (w : World) (fileToCheck : String) :
    List Action × Except ExitReason Unit :=
  if w.pathExists fileToCheck then
    match is_QCOW w fileToCheck with
    | (acts, Except.error e) => (Action.statCall fileToCheck :: acts, Except.error e)
    | (acts, Except.ok b) =>
        (Action.statCall fileToCheck :: acts,
          if b then Except.ok () else Except.error ExitReason.unrecognizedFormat)
  else ([Action.statCall fileToCheck], Except.error ExitReason.notFound)

/-- `load_nbd_driver()`: runs `modprobe nbd max_part=16`, exiting on a
nonzero status; then confirms with `lsmod | grep nbd`, exiting when the
driver does not appear loaded. -/
def load_nbd_driver (w : World) : List Action × Except ExitReason Unit :=
  if w.modprobeOk then
    ([Action.modprobe "nbd" "max_part=16", Action.lsmodGrep "nbd"],
      if w.lsmodHasNbd then Except.ok ()
      else Except.error ExitReason.driverNotConfirmed)
  else ([Action.modprobe "nbd" "max_part=16"],
    Except.error ExitReason.driverLoadFailed)

/-- The `while target_drive == ''` loop of `connect_nbd`: starting at
slot `i`, query `blockdev --getsize64 /dev/nbd<i>`; a failing query is
the uncaught `CalledProcessError`; size zero selects the slot; a nonzero
size moves to slot `i + 1`.  The loop has no bound in the source, so it
is embedded with fuel; exhausted fuel yields the artifact `outOfFuel`. -/
def nbdScan (size : Nat → Option Nat) : Nat → Nat → List Action × Except ExitReason Nat
  | 0, _ => ([], Except.error ExitReason.outOfFuel)
  | fuel + 1, i =>
    match size i with
    | none =>
        ([Action.blockdevGetSize (nbdPath i)],
          Except.error (ExitReason.uncaughtCalledProcessError (nbdPath i)))
    | some 0 => ([Action.blockdevGetSize (nbdPath i)], Except.ok i)
    | some (_ + 1) =>
        let rest := nbdScan size fuel (i + 1)
        (Action.blockdevGetSize (nbdPath i) :: rest.1, rest.2)

/-- `connect_nbd(image_file_to_connect)`: scans for the first empty slot
starting at `nbd_drive = 0`, then runs `qemu-nbd --connect` against the
chosen `/dev/nbd<i>` path, exiting on a nonzero status, and returns the
target drive path. -/
def connect_nbd (w : World) (fuel : Nat) (imageFile : String) :
    List Action × Except ExitReason String :=
  match nbdScan w.blockdevSize fuel 0 with
  | (acts, Except.error e) => (acts, Except.error e)
  | (acts, Except.ok i) =>
      (acts ++ [Action.qemuNbdConnect (nbdPath i) imageFile],
        if w.qemuConnectOk then Except.ok (nbdPath i)
        else Except.error ExitReason.connectFailed)

/-- `mount_devices(target_nbd_device)`: creates the mount point when it
does not exist; exits with the already-mounted message (carrying the
`mount | grep | cut` output) when `path.ismount` is true, without ever
running `mount`; otherwise sleeps 2 seconds, runs
`mount target_nbd_device MOUNT_POINT` and exits on a nonzero status. -/
def mount_devices (w : World) (mountPoint : String) (targetDevice : String) :
    List Action × Except ExitReason Unit :=
  let pre : List Action :=
    if w.dirExists mountPoint then [] else [Action.mkdirCall mountPoint]
  if w.isMountPoint mountPoint then
    (pre ++ [Action.ismountQuery mountPoint, Action.mountGrepQuery mountPoint],
      Except.error (ExitReason.alreadyMounted (w.mountedSource mountPoint)))
  else
    (pre ++ [Action.ismountQuery mountPoint, Action.sleepFor 2,
        Action.mountCmd targetDevice mountPoint],
      if w.mountOk then Except.ok () else Except.error ExitReason.mountFailed)

/-- The `__main__` block: `startup()`, then `check_image_file`,
`load_nbd_driver`, `connect_nbd`, and `mount_devices` on the connected
device plus the `"p1"` first-partition suffix, each stage running only
when every earlier stage succeeded.  Returns the emitted action trace
and either the exit reason of the first failing stage or the bound
device and mount point of a completed run. -/
def main_run (euid : Nat) (argv : List String) (w : World) (fuel : Nat) :
    List Action × Except ExitReason (String × String) :=
  match startup euid argv with
  | Except.error e => ([], Except.error e)
  | Except.ok (_, imageFile, mountPoint) =>
    match check_image_file w imageFile with
    | (a1, Except.error e) => (a1, Except.error e)
    | (a1, Except.ok _) =>
      match load_nbd_driver w with
      | (a2, Except.error e) => (a1 ++ a2, Except.error e)
      | (a2, Except.ok _) =>
        match connect_nbd w fuel imageFile with
        | (a3, Except.error e) => (a1 ++ a2 ++ a3, Except.error e)
        | (a3, Except.ok dev) =>
          match mount_devices w mountPoint (dev ++ "p1") with
          | (a4, Except.error e) => (a1 ++ a2 ++ a3 ++ a4, Except.error e)
          | (a4, Except.ok _) => (a1 ++ a2 ++ a3 ++ a4, Except.ok (dev, mountPoint))

/-! ## Concrete environments used to evaluate the embedding -/

/-- A benign world: the image file exists and starts with the QCOW2
magic, every external command succeeds, slot 0 is free, and the mount
point exists and is not in use. -/
def baseWorld : World where
  pathExists := fun _ => true
  openResult := fun _ => OpenResult.ok (qcowMagic ++ [0, 0, 0, 0])
  modprobeOk := true
  lsmodHasNbd := true
  blockdevSize := fun _ => some 0
  qemuConnectOk := true
  dirExists := fun _ => true
  isMountPoint := fun _ => false
  mountedSource := fun _ => ""
  mountOk := true

/-- A full default-sized pool: slots 0–15 exist and report nonzero size,
and the device node for slot 16 does not exist, so the size query on it
fails. -/
def pool16 : Nat → Option Nat := fun i => if i < 16 then some 1 else none

/-- A two-slot pool with both slots busy and no slot 2 device node. -/
def pool2Busy : Nat → Option Nat := fun i => if i < 2 then some 4096 else none

/-- A pool where slots 0–2 report nonzero size and slot 3 is free. -/
def pool3Busy : Nat → Option Nat := fun i => if i < 3 then some 1024 else some 0

/-- `baseWorld` with an image whose first four bytes are `00 00 00 00`. -/
def worldBadMagic : World :=
  { baseWorld with openResult := fun _ => OpenResult.ok [0, 0, 0, 0] }

/-- `baseWorld` with an empty (zero-byte) image file. -/
def worldEmptyFile : World :=
  { baseWorld with openResult := fun _ => OpenResult.ok [] }

/-- `baseWorld` with slots 0–2 busy and slot 3 free. -/
def worldSlot3 : World := { baseWorld with blockdevSize := pool3Busy }

/-- `baseWorld` where every mount directory is already a mount point. -/
def worldMounted : World :=
  { baseWorld with
      isMountPoint := fun _ => true
      mountedSource := fun _ => "/dev/sda1" }

/-- `baseWorld` where the final `mount` command fails. -/
def worldMountFails : World := { baseWorld with mountOk := false }

/-- `baseWorld` where `lsmod | grep nbd` does not show the driver even
though `modprobe` reported success. -/
def worldNotConfirmed : World := { baseWorld with lsmodHasNbd := false }

/-! ## Reduction lemmas for the pipeline -/

theorem main_run_startup_err (euid : Nat) (argv : List String) (w : World)
    (fuel : Nat) (e : ExitReason) (hs : startup euid argv = Except.error e) :
    main_run euid argv w fuel = ([], Except.error e) := by
  simp [main_run, hs]

theorem main_run_check_err (euid : Nat) (argv : List String) (w : World)
    (fuel v : Nat) (f m : String) (a1 : List Action) (e : ExitReason)
    (hs : startup euid argv = Except.ok (v, f, m))
    (hc : check_image_file w f = (a1, Except.error e)) :
    main_run euid argv w fuel = (a1, Except.error e) := by
  simp [main_run, hs, hc]

theorem main_run_driver_err (euid : Nat) (argv : List String) (w : World)
    (fuel v : Nat) (f m : String) (a1 a2 : List Action) (e : ExitReason)
    (hs : startup euid argv = Except.ok (v, f, m))
    (hc : check_image_file w f = (a1, Except.ok ()))
    (hd : load_nbd_driver w = (a2, Except.error e)) :
    main_run euid argv w fuel = (a1 ++ a2, Except.error e) := by
  simp [main_run, hs, hc, hd]

theorem main_run_connect_err (euid : Nat) (argv : List String) (w : World)
    (fuel v : Nat) (f m : String) (a1 a2 a3 : List Action) (e : ExitReason)
    (hs : startup euid argv = Except.ok (v, f, m))
    (hc : check_image_file w f = (a1, Except.ok ()))
    (hd : load_nbd_driver w = (a2, Except.ok ()))
    (hn : connect_nbd w fuel f = (a3, Except.error e)) :
    main_run euid argv w fuel = (a1 ++ a2 ++ a3, Except.error e) := by
  simp [main_run, hs, hc, hd, hn]

theorem main_run_mount (euid : Nat) (argv : List String) (w : World)
    (fuel v : Nat) (f m dev : String) (a1 a2 a3 a4 : List Action)
    (r : Except ExitReason Unit)
    (hs : startup euid argv = Except.ok (v, f, m))
    (hc : check_image_file w f = (a1, Except.ok ()))
    (hd : load_nbd_driver w = (a2, Except.ok ()))
    (hn : connect_nbd w fuel f = (a3, Except.ok dev))
    (hm : mount_devices w m (dev ++ "p1") = (a4, r)) :
    main_run euid argv w fuel =
      (a1 ++ a2 ++ a3 ++ a4,
        match r with
        | Except.error e => Except.error e
        | Except.ok _ => Except.ok (dev, m)) := by
  cases r with
  | error e => simp [main_run, hs, hc, hd, hn, hm]
  | ok u => cases u; simp [main_run, hs, hc, hd, hn, hm]

/-! ## Shapes of the traces emitted by each component -/

theorem check_trace_shape (w : World) (p : String) :
    ∀ a ∈ (check_image_file w p).1, a = Action.statCall p ∨ a = Action.openRead p := by
  intro a ha
  unfold check_image_file is_QCOW at ha
  by_cases hex : w.pathExists p
  · simp [hex] at ha
    rcases hw : w.openResult p with _ | _ | content <;> simp [hw] at ha <;> tauto
  · simp [hex] at ha
    simp [ha]

theorem driver_trace_shape (w : World) :
    ∀ a ∈ (load_nbd_driver w).1,
      a = Action.modprobe "nbd" "max_part=16" ∨ a = Action.lsmodGrep "nbd" := by
  intro a ha
  unfold load_nbd_driver at ha
  by_cases hm : w.modprobeOk <;> simp [hm] at ha <;> tauto

theorem nbdScan_trace_shape (size : Nat → Option Nat) :
    ∀ fuel i a, a ∈ (nbdScan size fuel i).1 → ∃ p, a = Action.blockdevGetSize p := by
  intro fuel
  induction fuel with
  | zero => intro i a ha; simp [nbdScan] at ha
  | succ n ih =>
    intro i a ha
    unfold nbdScan at ha
    rcases hs : size i with _ | s
    · simp [hs] at ha; exact ⟨nbdPath i, ha⟩
    · cases s with
      | zero => simp [hs] at ha; exact ⟨nbdPath i, ha⟩
      | succ t =>
        simp [hs] at ha
        rcases ha with ha | ha
        · exact ⟨nbdPath i, ha⟩
        · exact ih (i + 1) a ha

theorem connect_trace_shape (w : World) (fuel : Nat) (f : String) :
    ∀ a ∈ (connect_nbd w fuel f).1,
      (∃ p, a = Action.blockdevGetSize p) ∨ (∃ d g, a = Action.qemuNbdConnect d g) := by
  intro a ha
  unfold connect_nbd at ha
  rcases hn : nbdScan w.blockdevSize fuel 0 with ⟨acts, r⟩
  cases r with
  | error e =>
    rw [hn] at ha
    exact Or.inl (nbdScan_trace_shape w.blockdevSize fuel 0 a (by rw [hn]; exact ha))
  | ok i =>
    rw [hn] at ha
    simp at ha
    rcases ha with ha | ha
    · exact Or.inl (nbdScan_trace_shape w.blockdevSize fuel 0 a (by rw [hn]; exact ha))
    · exact Or.inr ⟨nbdPath i, f, ha⟩

theorem mount_trace_shape (w : World) (mp t : String) :
    ∀ a ∈ (mount_devices w mp t).1,
      a = Action.mkdirCall mp ∨ a = Action.ismountQuery mp ∨
      a = Action.mountGrepQuery mp ∨ a = Action.sleepFor 2 ∨ a = Action.mountCmd t mp := by
  intro a ha
  unfold mount_devices at ha
  by_cases hd : w.dirExists mp <;> by_cases hm : w.isMountPoint mp <;>
    simp [hd, hm] at ha <;> tauto

/-! ## Which exit reasons each component can produce -/

theorem startup_err_cases (euid : Nat) (argv : List String) (e : ExitReason)
    (hs : startup euid argv = Except.error e) :
    (∃ s, e = ExitReason.versionExit s) ∨ e = ExitReason.helpExit ∨
    e = ExitReason.usageError ∨ e = ExitReason.privilegeError := by
  unfold startup at hs
  split at hs
  · simp at hs; exact Or.inl ⟨_, hs.symm⟩
  · simp at hs; tauto
  · simp at hs; tauto
  · by_cases he : euid = 0
    · simp [he] at hs
    · simp [he] at hs; tauto

theorem check_err_cases (w : World) (p : String) (e : ExitReason)
    (hc : (check_image_file w p).2 = Except.error e) :
    e = ExitReason.notFound ∨ e = ExitReason.isDirectory ∨
    e = ExitReason.unreadable ∨ e = ExitReason.unrecognizedFormat := by
  unfold check_image_file is_QCOW at hc
  by_cases hex : w.pathExists p
  · simp [hex] at hc
    rcases hw : w.openResult p with _ | _ | content <;> simp [hw] at hc
    · tauto
    · tauto
    · by_cases hm : content.take 4 ∈ LEGITIMATE_HEADERS <;> simp [hm] at hc; tauto
  · simp [hex] at hc; tauto

theorem driver_err_cases (w : World) (e : ExitReason)
    (hd : (load_nbd_driver w).2 = Except.error e) :
    e = ExitReason.driverLoadFailed ∨ e = ExitReason.driverNotConfirmed := by
  unfold load_nbd_driver at hd
  by_cases hm : w.modprobeOk <;> simp [hm] at hd
  · by_cases hl : w.lsmodHasNbd <;> simp [hl] at hd; tauto
  · tauto

theorem nbdScan_err_cases (size : Nat → Option Nat) :
    ∀ fuel i e, (nbdScan size fuel i).2 = Except.error e →
      e = ExitReason.outOfFuel ∨ ∃ p, e = ExitReason.uncaughtCalledProcessError p := by
  intro fuel
  induction fuel with
  | zero => intro i e he; simp [nbdScan] at he; tauto
  | succ n ih =>
    intro i e he
    unfold nbdScan at he
    rcases hs : size i with _ | s
    · simp [hs] at he; exact Or.inr ⟨nbdPath i, he.symm⟩
    · cases s with
      | zero => simp [hs] at he
      | succ t => simp [hs] at he; exact ih (i + 1) e he

theorem connect_err_cases (w : World) (fuel : Nat) (f : String) (e : ExitReason)
    (hc : (connect_nbd w fuel f).2 = Except.error e) :
    e = ExitReason.outOfFuel ∨ (∃ p, e = ExitReason.uncaughtCalledProcessError p) ∨
    e = ExitReason.connectFailed := by
  unfold connect_nbd at hc
  rcases hn : nbdScan w.blockdevSize fuel 0 with ⟨acts, r⟩
  cases r with
  | error e2 =>
    rw [hn] at hc
    simp at hc
    rcases nbdScan_err_cases w.blockdevSize fuel 0 e2 (by rw [hn]) with h | h
    · subst hc; tauto
    · subst hc; tauto
  | ok i =>
    rw [hn] at hc
    by_cases hq : w.qemuConnectOk <;> simp [hq] at hc; tauto

theorem mount_err_cases (w : World) (mp t : String) (e : ExitReason)
    (hm : (mount_devices w mp t).2 = Except.error e) :
    (∃ s, e = ExitReason.alreadyMounted s) ∨ e = ExitReason.mountFailed := by
  unfold mount_devices at hm
  by_cases hi : w.isMountPoint mp <;> simp [hi] at hm
  · exact Or.inl ⟨w.mountedSource mp, hm.symm⟩
  · by_cases ho : w.mountOk <;> simp [ho] at hm; tauto

/-! ## Unfolding lemmas for the device-slot scan -/

theorem nbdScan_succ_busy (size : Nat → Option Nat) (fuel i s : Nat)
    (h : size i = some (s + 1)) :
    nbdScan size (fuel + 1) i =
      (Action.blockdevGetSize (nbdPath i) :: (nbdScan size fuel (i + 1)).1,
        (nbdScan size fuel (i + 1)).2) := by
  simp [nbdScan, h]

theorem nbdScan_succ_zero (size : Nat → Option Nat) (fuel i : Nat)
    (h : size i = some 0) :
    nbdScan size (fuel + 1) i = ([Action.blockdevGetSize (nbdPath i)], Except.ok i) := by
  simp [nbdScan, h]

theorem nbdScan_succ_none (size : Nat → Option Nat) (fuel i : Nat)
    (h : size i = none) :
    nbdScan size (fuel + 1) i =
      ([Action.blockdevGetSize (nbdPath i)],
        Except.error (ExitReason.uncaughtCalledProcessError (nbdPath i))) := by
  simp [nbdScan, h]

/-- Skipping `n` busy slots: the scan on `n + fuel` fuel from `start`
computes whatever the scan on `fuel` fuel from `start + n` computes, and
everything the later scan emits is emitted by the full scan. -/
theorem nbdScan_shift (size : Nat → Option Nat) :
    ∀ (n start fuel : Nat), (∀ i, i < n → ∃ s, size (start + i) = some (s + 1)) →
      (nbdScan size (n + fuel) start).2 = (nbdScan size fuel (start + n)).2 ∧
      ∀ a, a ∈ (nbdScan size fuel (start + n)).1 → a ∈ (nbdScan size (n + fuel) start).1 := by
  intro n
  induction n with
  | zero => intro start fuel _; simp
  | succ k ih =>
    intro start fuel hb
    obtain ⟨s, hs⟩ := hb 0 (Nat.succ_pos k)
    rw [Nat.add_zero] at hs
    have heq : k + 1 + fuel = (k + fuel) + 1 := by omega
    rw [heq, nbdScan_succ_busy size (k + fuel) start s hs]
    have ihh := ih (start + 1) fuel (fun i hi => by
      have h2 := hb (i + 1) (by omega)
      rwa [show start + (i + 1) = start + 1 + i by omega] at h2)
    rw [show start + 1 + k = start + (k + 1) by omega] at ihh
    refine ⟨ihh.1, fun a ha => ?_⟩
    exact List.mem_cons_of_mem _ (ihh.2 a ha)

/-- When slots `0 .. k-1` are busy and slot `k` reports size zero, the
scan (with enough fuel) selects slot `k` and probes it. -/
theorem nbdScan_zero_slot (size : Nat → Option Nat) (k f : Nat)
    (hb : ∀ i, i < k → ∃ s, size i = some (s + 1)) (hz : size k = some 0) :
    (nbdScan size (k + (f + 1)) 0).2 = Except.ok k ∧
    Action.blockdevGetSize (nbdPath k) ∈ (nbdScan size (k + (f + 1)) 0).1 := by
  have h := nbdScan_shift size k 0 (f + 1) (fun i hi => by simpa using hb i hi)
  rw [Nat.zero_add, nbdScan_succ_zero size f k hz] at h
  exact ⟨h.1, h.2 _ (by simp)⟩

/-- When slots `0 .. n-1` are busy and the device node for slot `n` does
not exist, the scan probes slot `n` (past the busy range) and the failed
size query there is the uncaught subprocess error. -/
theorem nbdScan_busy_fail (size : Nat → Option Nat) (n f : Nat)
    (hb : ∀ i, i < n → ∃ s, size i = some (s + 1)) (hn : size n = none) :
    (nbdScan size (n + (f + 1)) 0).2 =
      Except.error (ExitReason.uncaughtCalledProcessError (nbdPath n)) ∧
    Action.blockdevGetSize (nbdPath n) ∈ (nbdScan size (n + (f + 1)) 0).1 := by
  have h := nbdScan_shift size n 0 (f + 1) (fun i hi => by simpa using hb i hi)
  rw [Nat.zero_add, nbdScan_succ_none size f n hn] at h
  exact ⟨h.1, h.2 _ (by simp)⟩

/-! ## Helpers for the image check and the binder -/

/-- A readable regular file whose first four bytes are not the QCOW2
magic always fails the image check with the unrecognized-format exit. -/
theorem check_not_magic (w : World) (p : String) (content : List Nat)
    (hex : w.pathExists p = true) (hopen : w.openResult p = OpenResult.ok content)
    (hm : content.take 4 ≠ qcowMagic) :
    check_image_file w p =
      ([Action.statCall p, Action.openRead p],
        Except.error ExitReason.unrecognizedFormat) := by
  simp [check_image_file, is_QCOW, hex, hopen, LEGITIMATE_HEADERS, hm]

/-- A readable regular file whose first four bytes are the QCOW2 magic
passes the image check. -/
theorem check_magic_ok (w : World) (p : String) (content : List Nat)
    (hex : w.pathExists p = true) (hopen : w.openResult p = OpenResult.ok content)
    (hm : content.take 4 = qcowMagic) :
    check_image_file w p =
      ([Action.statCall p, Action.openRead p], Except.ok ()) := by
  simp [check_image_file, is_QCOW, hex, hopen, LEGITIMATE_HEADERS, hm]

/-- When `connect_nbd` succeeds with device `dev`, the `qemu-nbd
--connect` call on `dev` and the image file is in its trace. -/
theorem connect_ok_bind_in_trace (w : World) (fuel : Nat) (f dev : String)
    (h : (connect_nbd w fuel f).2 = Except.ok dev) :
    Action.qemuNbdConnect dev f ∈ (connect_nbd w fuel f).1 := by
  unfold connect_nbd at h ⊢
  rcases hn : nbdScan w.blockdevSize fuel 0 with ⟨acts, r⟩
  rw [hn] at h
  cases r with
  | error e => simp at h
  | ok i =>
    by_cases hq : w.qemuConnectOk
    · simp [hq] at h; subst h; simp
    · simp [hq] at h

/-! ## The shape of the whole pipeline's trace -/

/-- Every action the pipeline emits comes from one of its four effectful
stages. -/
theorem main_trace_cases (euid : Nat) (argv : List String) (w : World) (fuel : Nat) :
    ∀ a ∈ (main_run euid argv w fuel).1,
      (∃ p, a ∈ (check_image_file w p).1) ∨ a ∈ (load_nbd_driver w).1 ∨
      (∃ g, a ∈ (connect_nbd w fuel g).1) ∨ (∃ mp t, a ∈ (mount_devices w mp t).1) := by
  intro a ha
  rcases hst : startup euid argv with e | ⟨v, f, m⟩
  · rw [main_run_startup_err euid argv w fuel e hst] at ha; simp at ha
  · rcases hc : check_image_file w f with ⟨a1, r1⟩
    cases r1 with
    | error e =>
      rw [main_run_check_err euid argv w fuel v f m a1 e hst hc] at ha
      exact Or.inl ⟨f, by rw [hc]; exact ha⟩
    | ok u =>
      cases u
      rcases hd : load_nbd_driver w with ⟨a2, r2⟩
      cases r2 with
      | error e =>
        rw [main_run_driver_err euid argv w fuel v f m a1 a2 e hst hc hd] at ha
        rcases List.mem_append.mp ha with ha | ha
        · exact Or.inl ⟨f, by rw [hc]; exact ha⟩
        · exact Or.inr (Or.inl ha)
      | ok u2 =>
        cases u2
        rcases hn : connect_nbd w fuel f with ⟨a3, r3⟩
        cases r3 with
        | error e =>
          rw [main_run_connect_err euid argv w fuel v f m a1 a2 a3 e hst hc hd hn] at ha
          rcases List.mem_append.mp ha with ha | ha
          · rcases List.mem_append.mp ha with ha | ha
            · exact Or.inl ⟨f, by rw [hc]; exact ha⟩
            · exact Or.inr (Or.inl ha)
          · exact Or.inr (Or.inr (Or.inl ⟨f, by rw [hn]; exact ha⟩))
        | ok dev =>
          rcases hm2 : mount_devices w m (dev ++ "p1") with ⟨a4, r4⟩
          rw [main_run_mount euid argv w fuel v f m dev a1 a2 a3 a4 r4 hst hc hd hn hm2] at ha
          rcases List.mem_append.mp ha with ha | ha
          · rcases List.mem_append.mp ha with ha | ha
            · rcases List.mem_append.mp ha with ha | ha
              · exact Or.inl ⟨f, by rw [hc]; exact ha⟩
              · exact Or.inr (Or.inl ha)
            · exact Or.inr (Or.inr (Or.inl ⟨f, by rw [hn]; exact ha⟩))
          · exact Or.inr (Or.inr (Or.inr ⟨m, dev ++ "p1", by rw [hm2]; exact ha⟩))

/-- No run of the pipeline ever emits a `qemu-nbd -d` or an `umount`:
the teardown commands are only printed for the operator. -/
theorem main_no_teardown (euid : Nat) (argv : List String) (w : World) (fuel : Nat) :
    (∀ d, Action.qemuNbdDisconnect d ∉ (main_run euid argv w fuel).1) ∧
    (∀ p, Action.umountCmd p ∉ (main_run euid argv w fuel).1) := by
  constructor
  · intro d hd
    rcases main_trace_cases euid argv w fuel _ hd with ⟨p, hp⟩ | hp | ⟨g, hp⟩ | ⟨mp, t, hp⟩
    · rcases check_trace_shape w p _ hp with h | h <;> exact Action.noConfusion h
    · rcases driver_trace_shape w _ hp with h | h <;> exact Action.noConfusion h
    · rcases connect_trace_shape w fuel g _ hp with ⟨q, h⟩ | ⟨d2, g2, h⟩ <;>
        exact Action.noConfusion h
    · rcases mount_trace_shape w mp t _ hp with h | h | h | h | h <;>
        exact Action.noConfusion h
  · intro pp hp2
    rcases main_trace_cases euid argv w fuel _ hp2 with ⟨p, hp⟩ | hp | ⟨g, hp⟩ | ⟨mp, t, hp⟩
    · rcases check_trace_shape w p _ hp with h | h <;> exact Action.noConfusion h
    · rcases driver_trace_shape w _ hp with h | h <;> exact Action.noConfusion h
    · rcases connect_trace_shape w fuel g _ hp with ⟨q, h⟩ | ⟨d2, g2, h⟩ <;>
        exact Action.noConfusion h
    · rcases mount_trace_shape w mp t _ hp with h | h | h | h | h <;>
        exact Action.noConfusion h

/-- When the slot scan fails, `connect_nbd` propagates the failure and
emits only the scan's probes: no `qemu-nbd --connect` is issued. -/
theorem connect_scan_err (w : World) (fuel : Nat) (f : String) (e : ExitReason)
    (h : (nbdScan w.blockdevSize fuel 0).2 = Except.error e) :
    connect_nbd w fuel f = ((nbdScan w.blockdevSize fuel 0).1, Except.error e) := by
  unfold connect_nbd
  rcases hn : nbdScan w.blockdevSize fuel 0 with ⟨acts, r⟩
  rw [hn] at h
  cases r with
  | error e2 => simp at h; subst h; rfl
  | ok i => simp at h

/-- When the slot scan selects slot `i` and `qemu-nbd --connect`
succeeds, `connect_nbd` returns the path of slot `i` and its trace is
the scan's probes followed by the connect call. -/
theorem connect_scan_ok (w : World) (fuel : Nat) (f : String) (i : Nat)
    (h : (nbdScan w.blockdevSize fuel 0).2 = Except.ok i)
    (hq : w.qemuConnectOk = true) :
    connect_nbd w fuel f =
      ((nbdScan w.blockdevSize fuel 0).1 ++ [Action.qemuNbdConnect (nbdPath i) f],
        Except.ok (nbdPath i)) := by
  unfold connect_nbd
  rcases hn : nbdScan w.blockdevSize fuel 0 with ⟨acts, r⟩
  rw [hn] at h
  cases r with
  | error e => simp at h
  | ok j => simp at h; subst h; simp [hq]

/-! ## Claims -/

/-- C1, counterexample: the claim says a non-root run fails with the
privilege error regardless of argument validity, but a non-root run with
the (valid) `--version` argument exits with the version string and
status 0, never reaching the privilege check: the result is not the
privilege error. -/
theorem nonroot_version_flag_no_privilege_error :
    main_run 1000 ["--version"] baseWorld 20 =
      ([], Except.error (ExitReason.versionExit versionString)) ∧
    ExitReason.versionExit versionString ≠ ExitReason.privilegeError ∧
    exitCode (ExitReason.versionExit versionString) = 0 := by
  exact ⟨by rfl, by decide, by rfl⟩

/-- C1 (amended): if the process is not running as root and the
command-line arguments parse successfully (no version/help exit and no
usage error), it fails with the privilege error with an empty action
trace — before validation, driver loading, allocation, binding or
mounting execute — and the exit status is nonzero. -/
theorem nonroot_parsed_args_privilege_error_first (euid : Nat) (argv : List String)
    (w : World) (fuel v : Nat) (f m : String) (hne : euid ≠ 0)
    (hp : parseArgs argv 0 [] = ParseResult.ok v f m) :
    main_run euid argv w fuel = ([], Except.error ExitReason.privilegeError) ∧
    exitCode ExitReason.privilegeError ≠ 0 := by
  have hst : startup euid argv = Except.error ExitReason.privilegeError := by
    unfold startup; rw [hp]; simp [hne]
  exact ⟨main_run_startup_err euid argv w fuel _ hst, by decide⟩

/-- C1 witness: a concrete non-root run with valid arguments. -/
theorem nonroot_parsed_args_privilege_error_first_witness :
    (1000 : Nat) ≠ 0 ∧
    parseArgs ["disk.qcow2"] 0 [] = ParseResult.ok 0 "disk.qcow2" MOUNT_POINT ∧
    main_run 1000 ["disk.qcow2"] baseWorld 20 =
      ([], Except.error ExitReason.privilegeError) := by
  exact ⟨by decide, by rfl,
    (nonroot_parsed_args_privilege_error_first 1000 ["disk.qcow2"] baseWorld 20 0
      "disk.qcow2" MOUNT_POINT (by decide) (by rfl)).1⟩

/-- C2, counterexample: with the default 16-slot pool entirely busy
(slots 0–15 report nonzero size, `/dev/nbd16` does not exist), the
allocation loop does not fail with `PoolExhausted`: it scans past the
pool — probing `/dev/nbd16` — and dies on the uncaught
`CalledProcessError` of the failed size query. -/
theorem full_pool_uncaught_error_not_poolExhausted :
    (nbdScan pool16 17 0).2 =
      Except.error (ExitReason.uncaughtCalledProcessError "/dev/nbd16") ∧
    (nbdScan pool16 17 0).2 ≠ Except.error ExitReason.poolExhausted ∧
    Action.blockdevGetSize "/dev/nbd16" ∈ (nbdScan pool16 17 0).1 := by
  have h1 : (nbdScan pool16 17 0).2 =
      Except.error (ExitReason.uncaughtCalledProcessError "/dev/nbd16") := by rfl
  refine ⟨h1, ?_, by decide⟩
  rw [h1]
  intro h
  injection h with h2
  exact ExitReason.noConfusion h2

/-- C2 (amended): for every pool in which every slot `0 .. n-1` reports
nonzero size and the device node for slot `n` does not exist, the
allocation scan does not fail with `PoolExhausted`: it continues past
the pool, probes slot `n`, and fails with the uncaught subprocess error
of the failed size query there. -/
theorem full_pool_scan_past_uncaught (size : Nat → Option Nat) (n f : Nat)
    (hb : ∀ i, i < n → ∃ s, size i = some (s + 1)) (hn : size n = none) :
    (nbdScan size (n + (f + 1)) 0).2 =
      Except.error (ExitReason.uncaughtCalledProcessError (nbdPath n)) ∧
    (nbdScan size (n + (f + 1)) 0).2 ≠ Except.error ExitReason.poolExhausted ∧
    Action.blockdevGetSize (nbdPath n) ∈ (nbdScan size (n + (f + 1)) 0).1 := by
  obtain ⟨h1, h2⟩ := nbdScan_busy_fail size n f hb hn
  refine ⟨h1, ?_, h2⟩
  rw [h1]
  intro h
  injection h with h3
  exact ExitReason.noConfusion h3

/-- C2 witness: a concrete two-slot pool with both slots busy. -/
theorem full_pool_scan_past_uncaught_witness :
    pool2Busy 0 = some 4096 ∧ pool2Busy 1 = some 4096 ∧ pool2Busy 2 = none ∧
    (nbdScan pool2Busy 3 0).2 =
      Except.error (ExitReason.uncaughtCalledProcessError "/dev/nbd2") := by
  have hb : ∀ i, i < 2 → ∃ s, pool2Busy i = some (s + 1) := by
    intro i hi
    exact ⟨4095, by simp [pool2Busy, hi]⟩
  exact ⟨by rfl, by rfl, by rfl,
    (full_pool_scan_past_uncaught pool2Busy 2 0 hb (by rfl)).1⟩

/-- C3: the pipeline is fail-fast in stage order.  Given a successful
argument parse: (1) if validation fails, the whole trace is the
validator's and contains no `modprobe`; (2) if the slot scan fails
(after validation and driver load succeeded), no `qemu-nbd --connect`
and no `mount` is ever issued; (3) a completed run's trace is the
validator's, then the driver loader's, then the allocator/binder's,
then the mount manager's, in that order. -/
theorem pipeline_fail_fast_stage_order (euid : Nat) (argv : List String) (w : World)
    (fuel v : Nat) (f m : String)
    (hs : startup euid argv = Except.ok (v, f, m)) :
    (∀ e a1, check_image_file w f = (a1, Except.error e) →
      (main_run euid argv w fuel).1 = a1 ∧
      Action.modprobe "nbd" "max_part=16" ∉ (main_run euid argv w fuel).1) ∧
    (∀ a1 a2 e, check_image_file w f = (a1, Except.ok ()) →
      load_nbd_driver w = (a2, Except.ok ()) →
      (nbdScan w.blockdevSize fuel 0).2 = Except.error e →
      (∀ d g, Action.qemuNbdConnect d g ∉ (main_run euid argv w fuel).1) ∧
      (∀ d dir, Action.mountCmd d dir ∉ (main_run euid argv w fuel).1)) ∧
    (∀ dev mp, (main_run euid argv w fuel).2 = Except.ok (dev, mp) →
      mp = m ∧
      (main_run euid argv w fuel).1 =
        (check_image_file w f).1 ++ (load_nbd_driver w).1 ++
        (connect_nbd w fuel f).1 ++ (mount_devices w m (dev ++ "p1")).1) := by
  refine ⟨?_, ?_, ?_⟩
  · intro e a1 hc
    rw [main_run_check_err euid argv w fuel v f m a1 e hs hc]
    refine ⟨rfl, fun hmem => ?_⟩
    have h := check_trace_shape w f _ (by rw [hc]; exact hmem)
    rcases h with h | h <;> exact Action.noConfusion h
  · intro a1 a2 e hc hd hscan
    have hn := connect_scan_err w fuel f e hscan
    rw [main_run_connect_err euid argv w fuel v f m a1 a2
      (nbdScan w.blockdevSize fuel 0).1 e hs hc (by rw [hd]) (by rw [hn])]
    constructor
    · intro d g hmem
      rcases List.mem_append.mp hmem with hmem | hmem
      · rcases List.mem_append.mp hmem with hmem | hmem
        · rcases check_trace_shape w f _ (by rw [hc]; exact hmem) with h | h <;>
            exact Action.noConfusion h
        · rcases driver_trace_shape w _ (by rw [hd]; exact hmem) with h | h <;>
            exact Action.noConfusion h
      · obtain ⟨p, h⟩ := nbdScan_trace_shape w.blockdevSize fuel 0 _ hmem
        exact Action.noConfusion h
    · intro d dir hmem
      rcases List.mem_append.mp hmem with hmem | hmem
      · rcases List.mem_append.mp hmem with hmem | hmem
        · rcases check_trace_shape w f _ (by rw [hc]; exact hmem) with h | h <;>
            exact Action.noConfusion h
        · rcases driver_trace_shape w _ (by rw [hd]; exact hmem) with h | h <;>
            exact Action.noConfusion h
      · obtain ⟨p, h⟩ := nbdScan_trace_shape w.blockdevSize fuel 0 _ hmem
        exact Action.noConfusion h
  · intro dev mp hok
    rcases hc : check_image_file w f with ⟨a1, r1⟩
    cases r1 with
    | error e =>
      rw [main_run_check_err euid argv w fuel v f m a1 e hs hc] at hok
      simp at hok
    | ok u =>
      cases u
      rcases hd : load_nbd_driver w with ⟨a2, r2⟩
      cases r2 with
      | error e =>
        rw [main_run_driver_err euid argv w fuel v f m a1 a2 e hs hc hd] at hok
        simp at hok
      | ok u2 =>
        cases u2
        rcases hn : connect_nbd w fuel f with ⟨a3, r3⟩
        cases r3 with
        | error e =>
          rw [main_run_connect_err euid argv w fuel v f m a1 a2 a3 e hs hc hd hn] at hok
          simp at hok
        | ok dev0 =>
          rcases hm2 : mount_devices w m (dev0 ++ "p1") with ⟨a4, r4⟩
          rw [main_run_mount euid argv w fuel v f m dev0 a1 a2 a3 a4 r4 hs hc hd hn hm2] at hok
          cases r4 with
          | error e => simp at hok
          | ok u3 =>
            cases u3
            simp at hok
            obtain ⟨hdev, hmp⟩ := hok
            subst hdev
            subst hmp
            refine ⟨rfl, ?_⟩
            have h4 : (mount_devices w m (dev0 ++ "p1")).1 = a4 := by rw [hm2]
            rw [h4, main_run_mount euid argv w fuel v f m dev0 a1 a2 a3 a4
              (Except.ok ()) hs hc hd hn hm2]

/-- C3 witness: a file whose first four bytes are `00 00 00 00` fails at
validation and the run's trace contains no driver load. -/
theorem pipeline_fail_fast_stage_order_witness :
    startup 0 ["notes.txt"] = Except.ok (0, "notes.txt", MOUNT_POINT) ∧
    (main_run 0 ["notes.txt"] worldBadMagic 20).1 =
      [Action.statCall "notes.txt", Action.openRead "notes.txt"] ∧
    Action.modprobe "nbd" "max_part=16" ∉ (main_run 0 ["notes.txt"] worldBadMagic 20).1 := by
  have h := (pipeline_fail_fast_stage_order 0 ["notes.txt"] worldBadMagic 20 0
    "notes.txt" MOUNT_POINT (by rfl)).1 ExitReason.unrecognizedFormat
    [Action.statCall "notes.txt", Action.openRead "notes.txt"] (by rfl)
  exact ⟨by rfl, h.1, h.2⟩

/-- C4: whenever the mount table reports the target directory as an
active mount point, `mount_devices` fails with the already-mounted exit
carrying the currently-mounted source (the `mount | grep | cut` output)
and never issues the `mount` command. -/
theorem already_mounted_no_mount_call (w : World) (mp target : String)
    (hm : w.isMountPoint mp = true) :
    (mount_devices w mp target).2 =
      Except.error (ExitReason.alreadyMounted (w.mountedSource mp)) ∧
    ∀ d dir, Action.mountCmd d dir ∉ (mount_devices w mp target).1 := by
  constructor
  · unfold mount_devices
    simp [hm]
  · intro d dir hmem
    unfold mount_devices at hmem
    by_cases hd : w.dirExists mp <;> simp [hm, hd] at hmem

/-- C4 witness: a concrete world with the mount point in use. -/
theorem already_mounted_no_mount_call_witness :
    worldMounted.isMountPoint MOUNT_POINT = true ∧
    (mount_devices worldMounted MOUNT_POINT "/dev/nbd0p1").2 =
      Except.error (ExitReason.alreadyMounted "/dev/sda1") ∧
    Action.mountCmd "/dev/nbd0p1" MOUNT_POINT ∉
      (mount_devices worldMounted MOUNT_POINT "/dev/nbd0p1").1 := by
  have h := already_mounted_no_mount_call worldMounted MOUNT_POINT "/dev/nbd0p1" (by rfl)
  exact ⟨by rfl, h.1, h.2 "/dev/nbd0p1" MOUNT_POINT⟩

/-- C5: an existing readable regular file whose first four bytes differ
from the QCOW2 signature — the allow-list's only entry, bytes
`51 46 49 FB` — fails validation with the unrecognized-format exit, for
every path (no dependence on extension or name). -/
theorem non_qcow_magic_unrecognized_format (w : World) (p : String) (content : List Nat)
    (hex : w.pathExists p = true) (hopen : w.openResult p = OpenResult.ok content)
    (hm : content.take 4 ≠ qcowMagic) :
    (check_image_file w p).2 = Except.error ExitReason.unrecognizedFormat ∧
    LEGITIMATE_HEADERS = [qcowMagic] ∧ qcowMagic = [0x51, 0x46, 0x49, 0xFB] := by
  refine ⟨?_, rfl, rfl⟩
  rw [check_not_magic w p content hex hopen hm]

/-- C5 witness: a file named with the qcow2 extension but a wrong
magic. -/
theorem non_qcow_magic_unrecognized_format_witness :
    worldBadMagic.pathExists "fake.qcow2" = true ∧
    worldBadMagic.openResult "fake.qcow2" = OpenResult.ok [0, 0, 0, 0] ∧
    (check_image_file worldBadMagic "fake.qcow2").2 =
      Except.error ExitReason.unrecognizedFormat := by
  exact ⟨by rfl, by rfl,
    (non_qcow_magic_unrecognized_format worldBadMagic "fake.qcow2" [0, 0, 0, 0]
      (by rfl) (by rfl) (by decide)).1⟩

/-- C6: the slot scan starts at index 0, proceeds in ascending order,
and (with enough fuel) selects the lowest index reporting size zero;
`connect_nbd` then binds and returns that slot's `/dev/nbd` path. -/
theorem allocation_lowest_zero_slot (w : World) (k f : Nat) (imageFile : String)
    (hb : ∀ i, i < k → ∃ s, w.blockdevSize i = some (s + 1))
    (hz : w.blockdevSize k = some 0) (hq : w.qemuConnectOk = true) :
    (nbdScan w.blockdevSize (k + (f + 1)) 0).2 = Except.ok k ∧
    (connect_nbd w (k + (f + 1)) imageFile).2 = Except.ok (nbdPath k) := by
  obtain ⟨h1, _⟩ := nbdScan_zero_slot w.blockdevSize k f hb hz
  refine ⟨h1, ?_⟩
  rw [connect_scan_ok w (k + (f + 1)) imageFile k h1 hq]

/-- C6 witness: slots 0–2 busy and slot 3 free allocate `/dev/nbd3`. -/
theorem allocation_lowest_zero_slot_witness :
    worldSlot3.blockdevSize 0 = some 1024 ∧
    worldSlot3.blockdevSize 2 = some 1024 ∧
    worldSlot3.blockdevSize 3 = some 0 ∧
    (nbdScan worldSlot3.blockdevSize 4 0).2 = Except.ok 3 ∧
    (connect_nbd worldSlot3 4 "disk.qcow2").2 = Except.ok "/dev/nbd3" := by
  have hb : ∀ i, i < 3 → ∃ s, worldSlot3.blockdevSize i = some (s + 1) := by
    intro i hi
    exact ⟨1023, by simp [worldSlot3, baseWorld, pool3Busy, hi]⟩
  have h := allocation_lowest_zero_slot worldSlot3 3 0 "disk.qcow2" hb (by rfl) (by rfl)
  exact ⟨by rfl, by rfl, by rfl, h.1, h.2⟩

/-- C7: whenever the pipeline ends with the mount-failure exit, a
`qemu-nbd --connect` was issued earlier in the trace (the device was
bound), yet the trace contains no `qemu-nbd -d` and no `umount` — the
bound device is left bound — and the process status is nonzero. -/
theorem mount_failure_leaves_device_bound (euid : Nat) (argv : List String) (w : World)
    (fuel : Nat)
    (hmf : (main_run euid argv w fuel).2 = Except.error ExitReason.mountFailed) :
    (∃ dev g, Action.qemuNbdConnect dev g ∈ (main_run euid argv w fuel).1) ∧
    (∀ d, Action.qemuNbdDisconnect d ∉ (main_run euid argv w fuel).1) ∧
    (∀ p, Action.umountCmd p ∉ (main_run euid argv w fuel).1) ∧
    exitCode ExitReason.mountFailed ≠ 0 := by
  refine ⟨?_, (main_no_teardown euid argv w fuel).1,
    (main_no_teardown euid argv w fuel).2, by decide⟩
  rcases hst : startup euid argv with e | ⟨v, f, m⟩
  · rw [main_run_startup_err euid argv w fuel e hst] at hmf
    simp at hmf
    subst hmf
    rcases startup_err_cases euid argv _ hst with ⟨s, h⟩ | h | h | h <;>
      exact ExitReason.noConfusion h
  · rcases hc : check_image_file w f with ⟨a1, r1⟩
    cases r1 with
    | error e =>
      rw [main_run_check_err euid argv w fuel v f m a1 e hst hc] at hmf
      simp at hmf
      subst hmf
      rcases check_err_cases w f _ (by rw [hc]) with h | h | h | h <;>
        exact ExitReason.noConfusion h
    | ok u =>
      cases u
      rcases hd : load_nbd_driver w with ⟨a2, r2⟩
      cases r2 with
      | error e =>
        rw [main_run_driver_err euid argv w fuel v f m a1 a2 e hst hc hd] at hmf
        simp at hmf
        subst hmf
        rcases driver_err_cases w _ (by rw [hd]) with h | h <;>
          exact ExitReason.noConfusion h
      | ok u2 =>
        cases u2
        rcases hn : connect_nbd w fuel f with ⟨a3, r3⟩
        cases r3 with
        | error e =>
          rw [main_run_connect_err euid argv w fuel v f m a1 a2 a3 e hst hc hd hn] at hmf
          simp at hmf
          subst hmf
          rcases connect_err_cases w fuel f _ (by rw [hn]) with h | ⟨p, h⟩ | h <;>
            exact ExitReason.noConfusion h
        | ok dev =>
          rcases hm2 : mount_devices w m (dev ++ "p1") with ⟨a4, r4⟩
          rw [main_run_mount euid argv w fuel v f m dev a1 a2 a3 a4 r4 hst hc hd hn hm2]
          refine ⟨dev, f, ?_⟩
          have hbind := connect_ok_bind_in_trace w fuel f dev (by rw [hn])
          rw [hn] at hbind
          exact List.mem_append_left _ (List.mem_append_right _ hbind)

/-- C7 witness: a run where everything succeeds up to the final mount,
which fails. -/
theorem mount_failure_leaves_device_bound_witness :
    (main_run 0 ["disk.qcow2"] worldMountFails 5).2 =
      Except.error ExitReason.mountFailed ∧
    Action.qemuNbdConnect "/dev/nbd0" "disk.qcow2" ∈
      (main_run 0 ["disk.qcow2"] worldMountFails 5).1 ∧
    Action.qemuNbdDisconnect "/dev/nbd0" ∉
      (main_run 0 ["disk.qcow2"] worldMountFails 5).1 ∧
    Action.umountCmd "/mnt/qcow" ∉ (main_run 0 ["disk.qcow2"] worldMountFails 5).1 ∧
    exitCode ExitReason.mountFailed ≠ 0 := by
  have h := mount_failure_leaves_device_bound 0 ["disk.qcow2"] worldMountFails 5 (by rfl)
  exact ⟨by rfl, by decide, h.2.1 "/dev/nbd0", h.2.2.1 "/mnt/qcow", h.2.2.2⟩

/-- C8: after a successful `modprobe`, the confirmation query
`lsmod | grep nbd` is always in the trace, and when the driver does not
appear loaded the loader fails with the not-confirmed exit even though
`modprobe` reported success. -/
theorem driver_load_confirmation_query (w : World) (hmod : w.modprobeOk = true) :
    Action.lsmodGrep "nbd" ∈ (load_nbd_driver w).1 ∧
    (w.lsmodHasNbd = false →
      (load_nbd_driver w).2 = Except.error ExitReason.driverNotConfirmed) := by
  constructor
  · unfold load_nbd_driver
    simp [hmod]
  · intro hl
    unfold load_nbd_driver
    simp [hmod, hl]

/-- C8 witness: `modprobe` succeeds but the driver is not listed. -/
theorem driver_load_confirmation_query_witness :
    worldNotConfirmed.modprobeOk = true ∧
    worldNotConfirmed.lsmodHasNbd = false ∧
    Action.lsmodGrep "nbd" ∈ (load_nbd_driver worldNotConfirmed).1 ∧
    (load_nbd_driver worldNotConfirmed).2 =
      Except.error ExitReason.driverNotConfirmed := by
  have h := driver_load_confirmation_query worldNotConfirmed (by rfl)
  exact ⟨by rfl, by rfl, h.1, h.2 (by rfl)⟩

/-- C9: invoking the tool with `--version` exits with the version string
and status 0 for every effective uid — argument parsing, including the
version and help actions and usage errors for missing arguments, runs
before the privilege check — and a missing image-file argument is a
usage error (nonzero status) for every uid as well. -/
theorem version_flag_before_privilege_check (euid : Nat) (w : World) (fuel : Nat) :
    main_run euid ["--version"] w fuel =
      ([], Except.error (ExitReason.versionExit versionString)) ∧
    exitCode (ExitReason.versionExit versionString) = 0 ∧
    versionString = "MountNBD version 2014-11-25 (v0.9)" ∧
    startup euid [] = Except.error ExitReason.usageError ∧
    exitCode ExitReason.usageError ≠ 0 := by
  have hst : startup euid ["--version"] =
      Except.error (ExitReason.versionExit versionString) := by
    unfold startup
    rfl
  refine ⟨main_run_startup_err euid ["--version"] w fuel _ hst, by rfl, by rfl, ?_, by decide⟩
  unfold startup
  rfl

/-- C10: an existing readable regular file shorter than four bytes — the
empty file included — always fails validation with the
unrecognized-format exit: the short read never equals a four-byte header
and no other exit path is taken. -/
theorem short_file_unrecognized_format (w : World) (p : String) (content : List Nat)
    (hex : w.pathExists p = true) (hopen : w.openResult p = OpenResult.ok content)
    (hlen : content.length < 4) :
    (check_image_file w p).2 = Except.error ExitReason.unrecognizedFormat := by
  have hm : content.take 4 ≠ qcowMagic := by
    intro h
    have h4 : (content.take 4).length = 4 := by rw [h]; rfl
    rw [List.length_take] at h4
    omega
  rw [check_not_magic w p content hex hopen hm]

/-- C10 witness: the empty file. -/
theorem short_file_unrecognized_format_witness :
    worldEmptyFile.openResult "empty.img" = OpenResult.ok [] ∧
    List.length ([] : List Nat) < 4 ∧
    (check_image_file worldEmptyFile "empty.img").2 =
      Except.error ExitReason.unrecognizedFormat := by
  exact ⟨by rfl, by decide,
    short_file_unrecognized_format worldEmptyFile "empty.img" [] (by rfl) (by rfl)
      (by decide)⟩

end MountNBD
